import Mathlib

/-!
Verification of the RawEvent record schema and the record-store contract
from `src/sentry/models/rawevent.py`.

The source file declares a Django model `RawEvent` with fields
`project` (foreign key), `event_id` (CharField, max_length 32, nullable),
`datetime` (default `timezone.now`, indexed), `data` (NodeField with
`ref_func` and `ref_version=1`), a unique-together constraint on
`(project, event_id)`, the relocation-scope marker
`__relocation_scope__ = RelocationScope.Excluded`, and the helper

    def ref_func(x):
        return x.project_id or x.project.id

The store operations (Create/Delete and the reachable-state semantics of
the unique constraint) are supplied by the ORM and database engine, which
are not part of this repository fragment; they are modelled from the spec
where noted.
-/

namespace Sentry

/-- The relocation scopes of `sentry.backup.scopes.RelocationScope`
(only `Excluded` is used by this model). -/
inductive RelocationScope where
  | Excluded
  | User
  | Organization
  | Config
  | Global
deriving DecidableEq, Repr

/-- A Project row, as seen through the foreign key: only its primary key
`id` is read by this module (`x.project.id`). -/
structure Project where
  id : Nat
deriving DecidableEq, Repr

/-- A blob stored in the `data` NodeField: the payload together with the
reference-scope tag and reference-format version attached at write time
(`ref_func=ref_func, ref_version=1` in the field declaration). -/
structure TaggedBlob where
  scope : Nat
  version : Nat
  payload : String
deriving DecidableEq, Repr

/-- A RawEvent row.  `project_id` is the raw foreign-key column (it can be
unset on an unsaved instance, hence `Option`); `project` is the referenced
Project row; `event_id` is a nullable string column; `datetime` a
timestamp (modelled as `Nat`); `data` the optional tagged blob. -/
structure RawEvent where
  project_id : Option Nat
  project : Project
  event_id : Option String
  datetime : Nat
  data : Option TaggedBlob
deriving DecidableEq, Repr

/-- Python truthiness of an optional integer: `None` and `0` are falsy. -/
def truthy : Option Nat → Bool
  | none => false
  | some n => n != 0

/-- Python `a or b` for `a : Optional[int]`, `b : int`: yields `a` when
`a` is truthy, otherwise `b`. -/
def pyOr (a : Option Nat) (b : Nat) : Nat :=
  if truthy a then a.getD 0 else b

/-- `ref_func(x) = x.project_id or x.project.id` from the source. -/
def ref_func (x : RawEvent) : Nat :=
  pyOr x.project_id x.project.id

/-- The class attribute `__relocation_scope__ = RelocationScope.Excluded`:
a static marker shared by every RawEvent instance. -/
def relocationScopeOf (_ : RawEvent) : RelocationScope :=
  RelocationScope.Excluded

/-- Errors of the store contract (spec §7). -/
inductive StoreError where
  | UniquenessViolation
  | ForeignKeyViolation
  | ValidationError
deriving DecidableEq, Repr

/-- The record store: the set of existing Project ids (owned by the
storage layer, consulted for the foreign-key constraint) and the stored
RawEvent rows. -/
structure RawEventStore where
  projects : List Nat
  records : List RawEvent
deriving DecidableEq, Repr

/-- The `max_length=32` constraint on `event_id`; a null `event_id`
always satisfies it. -/
def validEventId : Option String → Bool
  | none => true
  | some s => s.length ≤ 32

/-- Whether a stored row collides with a new `(projectID, eventID)` pair
under the unique-together constraint on `(project, event_id)`.  Null
`event_id` values never collide (typical relational semantics, spec §9). -/
def collides (p : Nat) (e : Option String) (r : RawEvent) : Bool :=
  match e, r.event_id with
  | some a, some b => r.project_id == some p && a == b
  | _, _ => false

/-- The row a successful `Create` persists: `datetime` defaults to the
clock reading `now` when no explicit value is supplied
(`default=timezone.now` in the schema), and a present `data` payload is
wrapped with the reference scope computed by `ref_func` on the record and
reference version 1 (`ref_func=ref_func, ref_version=1` in the schema). -/
def createRow (projectID : Nat) (eventID : Option String)
    (dt : Option Nat) (now : Nat) (data : Option String) : RawEvent :=
  let base : RawEvent :=
    { project_id := some projectID, project := ⟨projectID⟩,
      event_id := eventID, datetime := dt.getD now, data := none }
  { base with data := data.map (fun b => ⟨ref_func base, 1, b⟩) }

/-- Modelled from the spec: `Create` of the RawEventStore contract
(spec §4.1).  The ORM/database write path is not part of this repository
fragment; this definition follows the spec's Create operation, with the
constants (`max_length=32`, the unique pair, the `timezone.now` default,
the `ref_func`/`ref_version=1` tagging) taken from the schema declaration
in the source.  `now` is the clock reading at the moment of the call; the
result is the (possibly unchanged) store paired with the outcome. -/
def Create (s : RawEventStore) (projectID : Nat) (eventID : Option String)
    (dt : Option Nat) (now : Nat) (data : Option String) :
    RawEventStore × Except StoreError RawEvent :=
  if !validEventId eventID then
    (s, .error .ValidationError)
  else if !s.projects.contains projectID then
    (s, .error .ForeignKeyViolation)
  else if s.records.any (collides projectID eventID) then
    (s, .error .UniquenessViolation)
  else
    ({ s with records := createRow projectID eventID dt now data :: s.records },
     .ok (createRow projectID eventID dt now data))

@[simp] theorem createRow_project_id (p : Nat) (e : Option String)
    (dt : Option Nat) (now : Nat) (d : Option String) :
    (createRow p e dt now d).project_id = some p := rfl

@[simp] theorem createRow_event_id (p : Nat) (e : Option String)
    (dt : Option Nat) (now : Nat) (d : Option String) :
    (createRow p e dt now d).event_id = e := rfl

@[simp] theorem createRow_datetime (p : Nat) (e : Option String)
    (dt : Option Nat) (now : Nat) (d : Option String) :
    (createRow p e dt now d).datetime = dt.getD now := rfl

/-- Whether a stored row is the one addressed by an exact
`(projectID, eventID)` lookup key. -/
def matchKey (p : Nat) (e : Option String) (r : RawEvent) : Bool :=
  r.project_id == some p && r.event_id == e

/-- Modelled from the spec: `Delete` of the RawEventStore contract
(spec §4.1) — idempotent removal of the rows matching the pair, returning
whether a row existed. -/
def Delete (s : RawEventStore) (p : Nat) (e : Option String) :
    RawEventStore × Bool :=
  ({ s with records := s.records.filter (fun r => !matchKey p e r) },
   s.records.any (matchKey p e))

/-- One store operation, for the reachable-state semantics. -/
inductive Op where
  | create (projectID : Nat) (eventID : Option String)
      (dt : Option Nat) (now : Nat) (data : Option String)
  | delete (projectID : Nat) (eventID : Option String)

/-- Apply one operation to the store (keeping only the resulting state). -/
def applyOp (s : RawEventStore) : Op → RawEventStore
  | .create p e dt now d => (Create s p e dt now d).1
  | .delete p e => (Delete s p e).1

/-- Apply a sequence of operations. -/
def applyOps (s : RawEventStore) (ops : List Op) : RawEventStore :=
  ops.foldl applyOp s

/-- A fresh store over a given set of Projects: no RawEvent rows yet. -/
def initStore (ps : List Nat) : RawEventStore :=
  ⟨ps, []⟩

/-- A store state is reachable when it arises from a fresh store by a
sequence of Create/Delete operations. -/
def Reachable (s : RawEventStore) : Prop :=
  ∃ ps ops, applyOps (initStore ps) ops = s

/-- Two rows clash under the unique constraint: same `project_id`, same
non-null `event_id`. -/
def sameNNKey (a b : RawEvent) : Prop :=
  a.project_id = b.project_id ∧ a.event_id = b.event_id ∧ a.event_id ≠ none

instance (a b : RawEvent) : Decidable (sameNNKey a b) := by
  unfold sameNNKey; infer_instance

/-- The spec's reading of the uniqueness invariant, verbatim: no two
stored records share the same `project_id` and the same `event_id`
(null included). -/
def PairIdentifiesAtMostOne (s : RawEventStore) : Prop :=
  s.records.Pairwise
    (fun a b => ¬ (a.project_id = b.project_id ∧ a.event_id = b.event_id))

instance (s : RawEventStore) : Decidable (PairIdentifiesAtMostOne s) := by
  unfold PairIdentifiesAtMostOne; infer_instance

/-- The uniqueness invariant actually enforced by the schema: no two
distinct stored rows share the same `project_id` and the same non-null
`event_id`. -/
def UniqueNonNull (s : RawEventStore) : Prop :=
  s.records.Pairwise (fun a b => ¬ sameNNKey a b)

instance (s : RawEventStore) : Decidable (UniqueNonNull s) := by
  unfold UniqueNonNull; infer_instance

/-- A reachable store holding two rows for project 1 that both have a
null `event_id` (and different timestamps). -/
def twoNullStore : RawEventStore :=
  ⟨[1], [⟨some 1, ⟨1⟩, none, 5, none⟩, ⟨some 1, ⟨1⟩, none, 0, none⟩]⟩

theorem collides_eq_true_iff (p : Nat) (e : Option String) (r : RawEvent) :
    collides p e r = true ↔
      r.project_id = some p ∧ r.event_id = e ∧ e ≠ none := by
  unfold collides
  cases e with
  | none => simp
  | some a =>
    cases he : r.event_id with
    | none => simp [he]
    | some b =>
      constructor
      · intro hb
        have hab : r.project_id = some p ∧ a = b := by simpa using hb
        refine ⟨hab.1, ?_, Option.some_ne_none a⟩
        rw [hab.2]
      · rintro ⟨hp, hev, -⟩
        have hba : b = a := Option.some.inj hev
        simp [hp, hba]

theorem create_preserves_uniqueNonNull (s : RawEventStore) (p : Nat)
    (e : Option String) (dt : Option Nat) (now : Nat) (d : Option String)
    (h : UniqueNonNull s) : UniqueNonNull (Create s p e dt now d).1 := by
  unfold Create
  split
  · exact h
  · split
    · exact h
    · split
      · exact h
      · rename_i hval hfk hdup
        unfold UniqueNonNull at h ⊢
        simp only [List.pairwise_cons]
        refine ⟨?_, h⟩
        intro r hr hsame
        obtain ⟨h1, h2, h3⟩ := hsame
        simp only [createRow_project_id, createRow_event_id] at h1 h2 h3
        have hc : collides p e r = true :=
          (collides_eq_true_iff p e r).mpr ⟨h1.symm, h2.symm, h3⟩
        exact hdup (List.any_eq_true.mpr ⟨r, hr, hc⟩)

theorem delete_preserves_uniqueNonNull (s : RawEventStore) (p : Nat)
    (e : Option String) (h : UniqueNonNull s) :
    UniqueNonNull (Delete s p e).1 := by
  unfold UniqueNonNull at h ⊢
  unfold Delete
  exact List.Pairwise.sublist (List.filter_sublist _) h

theorem applyOp_preserves_uniqueNonNull (s : RawEventStore) (o : Op)
    (h : UniqueNonNull s) : UniqueNonNull (applyOp s o) := by
  cases o with
  | create p e dt now d => exact create_preserves_uniqueNonNull s p e dt now d h
  | delete p e => exact delete_preserves_uniqueNonNull s p e h

theorem applyOps_preserves_uniqueNonNull (ops : List Op) :
    ∀ s : RawEventStore, UniqueNonNull s → UniqueNonNull (applyOps s ops) := by
  induction ops with
  | nil => intro s h; exact h
  | cons o ops ih =>
    intro s h
    exact ih (applyOp s o) (applyOp_preserves_uniqueNonNull s o h)

/-- Claim C2, counterexample: a reachable state (two Creates with a null
`event_id` for project 1) holding two records that share the same
`project_id` and the same (null) `event_id` — the pair does not identify
at most one record when `event_id` is null. -/
theorem unique_pair_null_counterexample :
    Reachable twoNullStore ∧ ¬ PairIdentifiesAtMostOne twoNullStore := by
  constructor
  · exact ⟨[1], [.create 1 none (some 0) 0 none, .create 1 none (some 5) 0 none],
      by decide⟩
  · decide

/-- Claim C2 (amended): in every reachable state, the pair
`(project_id, event_id)` identifies at most one record when `event_id`
is non-null; records with a null `event_id` are exempt and may repeat
per project. -/
theorem unique_nonnull_invariant (s : RawEventStore) (h : Reachable s) :
    UniqueNonNull s := by
  obtain ⟨ps, ops, hops⟩ := h
  rw [← hops]
  exact applyOps_preserves_uniqueNonNull ops (initStore ps) List.Pairwise.nil

/-- Witness for `unique_nonnull_invariant` at the concrete reachable
state `twoNullStore`. -/
theorem unique_nonnull_invariant_witness : UniqueNonNull twoNullStore :=
  unique_nonnull_invariant twoNullStore
    ⟨[1], [.create 1 none (some 0) 0 none, .create 1 none (some 5) 0 none],
      by decide⟩

/-- Claim C1, counterexample: a record whose `project_id` is set (to 0)
on which `ref_func` does not return `project_id` but the Project's id. -/
theorem ref_func_project_id_zero_counterexample :
    (⟨some 0, ⟨5⟩, none, 0, none⟩ : RawEvent).project_id = some 0 ∧
    ref_func ⟨some 0, ⟨5⟩, none, 0, none⟩ = 5 ∧
    ref_func ⟨some 0, ⟨5⟩, none, 0, none⟩ ≠ 0 := by
  refine ⟨rfl, rfl, ?_⟩; decide

/-- Claim C1 (amended): `ref_func` returns the record's `project_id` when
it is set to a nonzero value; when `project_id` is unset or zero it
returns the identifier of the record's associated Project. -/
theorem ref_func_spec (r : RawEvent) :
    (∀ n : Nat, r.project_id = some n → n ≠ 0 → ref_func r = n) ∧
    ((r.project_id = none ∨ r.project_id = some 0) →
      ref_func r = r.project.id) := by
  constructor
  · intro n hn hnz
    simp [ref_func, pyOr, truthy, hn, hnz]
  · rintro (h | h) <;> simp [ref_func, pyOr, truthy, h]

/-- Witness for `ref_func_spec` at concrete records. -/
theorem ref_func_spec_witness :
    ref_func ⟨some 3, ⟨9⟩, none, 0, none⟩ = 3 ∧
    ref_func ⟨none, ⟨9⟩, none, 0, none⟩ = 9 :=
  ⟨(ref_func_spec _).1 3 rfl (by decide),
   (ref_func_spec _).2 (Or.inl rfl)⟩

/-- Claim C8: the relocation-scope marker of the RawEvent entity is the
static class attribute `RelocationScope.Excluded`, the same for every
record; no store operation touches it. -/
theorem relocation_scope_excluded (r : RawEvent) :
    relocationScopeOf r = RelocationScope.Excluded :=
  rfl

/-- Claim C10: `ref_func` falls back to the associated Project's id
whenever `project_id` is falsy in the Python sense — `None` or `0` —
because it is implemented with the `or` operator; in particular a record
with `project_id = 0` yields the Project's id, not 0. -/
theorem ref_func_falsy_fallback (r : RawEvent)
    (h : truthy r.project_id = false) :
    ref_func r = r.project.id := by
  simp [ref_func, pyOr, h]

/-- Witness for `ref_func_falsy_fallback`: a record with `project_id = 0`
resolves to its Project's id 7 rather than 0. -/
theorem ref_func_falsy_fallback_witness :
    truthy (some 0) = false ∧
    ref_func ⟨some 0, ⟨7⟩, none, 0, none⟩ = 7 :=
  ⟨by decide, ref_func_falsy_fallback ⟨some 0, ⟨7⟩, none, 0, none⟩ (by decide)⟩

/-- Claim C4: `Create` with a null `event_id` never fails with
`UniquenessViolation`, whatever records (including other null-`event_id`
rows of the same project) the store already holds. -/
theorem create_null_event_no_uniqueness_violation (s : RawEventStore)
    (p : Nat) (dt : Option Nat) (now : Nat) (d : Option String) :
    (Create s p none dt now d).2 ≠
      Except.error StoreError.UniquenessViolation := by
  unfold Create
  split
  · simp
  · split
    · simp
    · split
      · rename_i hdup
        exfalso
        rw [List.any_eq_true] at hdup
        obtain ⟨r, hr, hc⟩ := hdup
        rw [collides_eq_true_iff] at hc
        exact hc.2.2 rfl
      · simp

/-- Claim C5: `Create` with an `event_id` longer than 32 characters fails
with `ValidationError` and stores nothing; any `event_id` of length at
most 32 passes the length constraint. -/
theorem create_long_event_id_validation (s : RawEventStore) (p : Nat)
    (estr : String) (dt : Option Nat) (now : Nat) (d : Option String)
    (h : 32 < estr.length) :
    Create s p (some estr) dt now d = (s, .error .ValidationError) ∧
    ∀ e2 : String, e2.length ≤ 32 → validEventId (some e2) = true := by
  constructor
  · have hv : validEventId (some estr) = false := by
      simp only [validEventId, decide_eq_false_iff_not]
      omega
    unfold Create
    rw [hv]
    simp
  · intro e2 h2
    simp [validEventId, h2]

/-- Witness for `create_long_event_id_validation` on a 33-character
`event_id`. -/
theorem create_long_event_id_validation_witness :
    Create (initStore [1]) 1 (some ⟨List.replicate 33 'a'⟩) none 0 none =
      (initStore [1], .error .ValidationError) ∧
    validEventId (some "abc123") = true :=
  ⟨(create_long_event_id_validation (initStore [1]) 1 ⟨List.replicate 33 'a'⟩
      none 0 none (by simp [String.length])).1,
   (create_long_event_id_validation (initStore [1]) 1 ⟨List.replicate 33 'a'⟩
      none 0 none (by simp [String.length])).2 "abc123" (by decide)⟩

/-- Claim C3: with a non-null `event_id` pair (of valid length, for an
existing project), the first `Create` succeeds, and once a record with
the pair exists a further `Create` with the same pair fails with
`UniquenessViolation` and leaves the stored records unchanged. -/
theorem create_duplicate_uniqueness (s : RawEventStore) (p : Nat)
    (estr : String) (dt dt2 : Option Nat) (now now2 : Nat)
    (d d2 : Option String)
    (hlen : estr.length ≤ 32) (hp : p ∈ s.projects) :
    ((∀ r ∈ s.records,
        ¬(r.project_id = some p ∧ r.event_id = some estr)) →
      Create s p (some estr) dt now d =
        ({ s with records := createRow p (some estr) dt now d :: s.records },
         .ok (createRow p (some estr) dt now d))) ∧
    (∀ r0 ∈ s.records, r0.project_id = some p → r0.event_id = some estr →
      Create s p (some estr) dt2 now2 d2 =
        (s, .error .UniquenessViolation)) := by
  have hv : validEventId (some estr) = true := by
    simp [validEventId, hlen]
  have hc : s.projects.contains p = true := List.elem_iff.mpr hp
  constructor
  · intro hnone
    have hdup : s.records.any (collides p (some estr)) = false := by
      rw [List.any_eq_false]
      intro r hr hcol
      rw [collides_eq_true_iff] at hcol
      exact hnone r hr ⟨hcol.1, hcol.2.1⟩
    simp [Create, hv, hc, hdup, hp]
  · intro r0 hr0 hpid hev
    have hdup : s.records.any (collides p (some estr)) = true :=
      List.any_eq_true.mpr
        ⟨r0, hr0, (collides_eq_true_iff p (some estr) r0).mpr
          ⟨hpid, hev, Option.some_ne_none estr⟩⟩
    simp [Create, hv, hc, hdup, hp]

/-- Witness for `create_duplicate_uniqueness`: creating `(42, "abc123")`
in a fresh store succeeds; repeating it on the resulting store fails with
`UniquenessViolation` and keeps the store as it was. -/
theorem create_duplicate_uniqueness_witness :
    Create (initStore [42]) 42 (some "abc123") none 5 none =
      (⟨[42], [createRow 42 (some "abc123") none 5 none]⟩,
       .ok (createRow 42 (some "abc123") none 5 none)) ∧
    Create ⟨[42], [createRow 42 (some "abc123") none 5 none]⟩ 42
        (some "abc123") none 6 none =
      (⟨[42], [createRow 42 (some "abc123") none 5 none]⟩,
       .error .UniquenessViolation) :=
  ⟨(create_duplicate_uniqueness (initStore [42]) 42 "abc123" none none 5 5
      none none (by decide) (by decide)).1 (by decide),
   (create_duplicate_uniqueness
      ⟨[42], [createRow 42 (some "abc123") none 5 none]⟩ 42 "abc123"
      none none 6 6 none none (by decide) (by decide)).2
      (createRow 42 (some "abc123") none 5 none) (by decide)
      (by decide) (by decide)⟩

/-- Claim C6: a successful `Create` without an explicit `datetime` yields
a record whose `datetime` is the clock reading `now` at the moment of the
call; with an explicit `datetime` the supplied value is stored. -/
theorem create_datetime_default (s s2 : RawEventStore) (p : Nat)
    (e : Option String) (now : Nat) (d : Option String) (r : RawEvent) :
    (Create s p e none now d = (s2, .ok r) → r.datetime = now) ∧
    (∀ t : Nat, Create s p e (some t) now d = (s2, .ok r) →
      r.datetime = t) := by
  constructor
  · intro h
    unfold Create at h
    split at h
    · simp at h
    · split at h
      · simp at h
      · split at h
        · simp at h
        · have h2 := congrArg Prod.snd h
          simp only [Except.ok.injEq] at h2
          rw [← h2]
          simp
  · intro t h
    unfold Create at h
    split at h
    · simp at h
    · split at h
      · simp at h
      · split at h
        · simp at h
        · have h2 := congrArg Prod.snd h
          simp only [Except.ok.injEq] at h2
          rw [← h2]
          simp

/-- Witness for `create_datetime_default`: omitted `datetime` gives the
clock value 9; a supplied `datetime` 3 is stored as given. -/
theorem create_datetime_default_witness :
    (createRow 1 none none 9 none).datetime = 9 ∧
    (createRow 1 none (some 3) 9 none).datetime = 3 :=
  ⟨(create_datetime_default (initStore [1]) ⟨[1], [createRow 1 none none 9 none]⟩
      1 none 9 none (createRow 1 none none 9 none)).1 rfl,
   (create_datetime_default (initStore [1])
      ⟨[1], [createRow 1 none (some 3) 9 none]⟩
      1 none 9 none (createRow 1 none (some 3) 9 none)).2 3 rfl⟩

theorem pyOr_some_self (n : Nat) : pyOr (some n) n = n := by
  simp [pyOr, truthy]

theorem createRow_ref (p : Nat) (e : Option String) (dt : Option Nat)
    (now : Nat) (d : Option String) : ref_func (createRow p e dt now d) = p :=
  pyOr_some_self p

/-- Claim C7: a successful `Create` with `data` present stores the blob
tagged with the reference scope `ref_func` computes from the record
(`project_id`, falling back to the Project's id) and with reference
version exactly 1; that scope equals the project id. -/
theorem create_data_tagged (s s2 : RawEventStore) (p : Nat)
    (e : Option String) (dt : Option Nat) (now : Nat) (b : String)
    (r : RawEvent)
    (h : Create s p e dt now (some b) = (s2, .ok r)) :
    r.data = some ⟨ref_func r, 1, b⟩ ∧ ref_func r = p := by
  unfold Create at h
  split at h
  · simp at h
  · split at h
    · simp at h
    · split at h
      · simp at h
      · have h2 := congrArg Prod.snd h
        simp only [Except.ok.injEq] at h2
        rw [← h2]
        exact ⟨rfl, createRow_ref p e dt now (some b)⟩

/-- Witness for `create_data_tagged`: storing payload `"v"` under project
42 tags it with scope 42 and version 1. -/
theorem create_data_tagged_witness :
    (createRow 42 (some "abc123") none 5 (some "v")).data =
      some ⟨42, 1, "v"⟩ :=
  have h := create_data_tagged (initStore [42])
    ⟨[42], [createRow 42 (some "abc123") none 5 (some "v")]⟩ 42
    (some "abc123") none 5 "v"
    (createRow 42 (some "abc123") none 5 (some "v")) rfl
  by rw [h.1, h.2]

/-- Claim C9: `Delete` is idempotent — it returns whether a matching
record existed, is a no-op (returning false, no error) when none exists,
removes every matching record, and applying it twice equals applying it
once. -/
theorem delete_idempotent (s : RawEventStore) (p : Nat) (e : Option String) :
    ((Delete s p e).2 = true ↔ ∃ r, r ∈ s.records ∧ matchKey p e r = true) ∧
    ((∀ r ∈ s.records, matchKey p e r = false) → Delete s p e = (s, false)) ∧
    (∀ r ∈ (Delete s p e).1.records, matchKey p e r = false) ∧
    Delete (Delete s p e).1 p e = ((Delete s p e).1, false) := by
  have hafter : ∀ r ∈ (Delete s p e).1.records, matchKey p e r = false := by
    intro r hr
    unfold Delete at hr
    simp only [List.mem_filter] at hr
    simpa using hr.2
  have hnone : ∀ s3 : RawEventStore,
      (∀ r ∈ s3.records, matchKey p e r = false) →
      Delete s3 p e = (s3, false) := by
    intro s3 hall
    unfold Delete
    have h1 : s3.records.filter (fun r => !matchKey p e r) = s3.records := by
      rw [List.filter_eq_self]
      intro a ha
      simp [hall a ha]
    have h2 : s3.records.any (matchKey p e) = false := by
      rw [List.any_eq_false]
      intro a ha
      simp [hall a ha]
    rw [h1, h2]
  refine ⟨?_, hnone s, hafter, hnone _ hafter⟩
  unfold Delete
  simp

/-- Witness for `delete_idempotent`: deleting the present key
`(1, "x")` reports true; deleting the absent key `(2, null)` leaves the
store unchanged and reports false. -/
theorem delete_idempotent_witness :
    (Delete ⟨[1], [⟨some 1, ⟨1⟩, some "x", 0, none⟩]⟩ 1 (some "x")).2 = true ∧
    Delete ⟨[1], [⟨some 1, ⟨1⟩, some "x", 0, none⟩]⟩ 2 none =
      (⟨[1], [⟨some 1, ⟨1⟩, some "x", 0, none⟩]⟩, false) :=
  ⟨(delete_idempotent ⟨[1], [⟨some 1, ⟨1⟩, some "x", 0, none⟩]⟩ 1
      (some "x")).1.mpr ⟨⟨some 1, ⟨1⟩, some "x", 0, none⟩, by decide, by decide⟩,
   (delete_idempotent ⟨[1], [⟨some 1, ⟨1⟩, some "x", 0, none⟩]⟩ 2
      none).2.1 (by decide)⟩

end Sentry
